import Mathlib

/-!
Shallow embedding of the Osteoflow desktop data layer
(src/desktop/src-tauri/src/{main,state,profile,db,models}.rs).

Modelling conventions:
* Byte sequences are `List Nat`; machine strings are Lean `String`.
* The Argon2 KDF primitive is an explicit parameter (`KDFStream`): given a
  password, a salt and cost parameters it either fails or yields a byte
  stream; filling an n-byte output buffer (`hash_password_into`) reads the
  first n bytes of the stream.  This models the library's in-place fill: the
  output buffer keeps its allocated length.
* Filesystem and SQLite effects are oracles / explicit state: the catalog
  file is a `FileRead`, the per-profile store is a list of rows addressed by
  `(db_path, key)` through a `StoreOracle`.
* The base64 encoding of the key salt is treated as the identity on byte
  sequences (`key_salt` holds the decoded bytes); the PHC hash string is
  held pre-parsed as a `PasswordHashRecord` (its constant algorithm/version
  fields, Argon2id / 0x13 in both hashing and verification, are omitted).
* The mutex around the session slot is modelled as always acquirable (the
  poisoned-lock `Config` branch is unreachable absent a panic).
-/

namespace Osteoflow

/-- Error enumeration of src/desktop/src-tauri/src/state.rs (`AppError`).
Each variant carries its user-facing message string. -/
inductive AppError where
  | Validation (msg : String)
  | Auth (msg : String)
  | NotFound (msg : String)
  | Config (msg : String)
  | Io (msg : String)
  | Database (msg : String)
deriving DecidableEq, Repr

/-- The error kind (the `AppError` variant), as distinguishable by a caller. -/
inductive ErrorKind where
  | validation | auth | notFound | config | io | database
deriving DecidableEq, Repr

/-- Which variant an `AppError` is. -/
def AppError.kind : AppError → ErrorKind
  | .Validation _ => .validation
  | .Auth _ => .auth
  | .NotFound _ => .notFound
  | .Config _ => .config
  | .Io _ => .io
  | .Database _ => .database

/-- `impl From<AppError> for String` in state.rs: every error collapses to its
message string (`#[error("{0}")]` Display). -/
def AppError.message : AppError → String
  | .Validation m => m
  | .Auth m => m
  | .NotFound m => m
  | .Config m => m
  | .Io m => m
  | .Database m => m

/-- Argon2 cost parameters persisted per profile
(profile.rs, `Argon2ParamsConfig`). -/
structure Argon2ParamsConfig where
  m_cost : Nat
  t_cost : Nat
  p_cost : Nat
  output_len : Nat
deriving DecidableEq, Repr

namespace Params

/-- Validity ranges enforced by `argon2::Params::new`. -/
def valid (c : Argon2ParamsConfig) : Prop :=
  8 ≤ c.m_cost ∧ 1 ≤ c.t_cost ∧ 1 ≤ c.p_cost ∧ c.p_cost ≤ 0xFFFFFF ∧
    4 ≤ c.output_len

instance (c : Argon2ParamsConfig) : Decidable (valid c) := by
  unfold valid; infer_instance

/-- `argon2::Params::new(m_cost, t_cost, p_cost, Some(output_len))`: range
checks of the argon2 crate; an out-of-range parameter is an error. -/
def new (m t p o : Nat) : Except String Argon2ParamsConfig :=
  if m < 8 then .error "memory cost is too small"
  else if t < 1 then .error "time cost is too small"
  else if p < 1 then .error "not enough threads"
  else if 0xFFFFFF < p then .error "too many threads"
  else if o < 4 then .error "output is too short"
  else .ok ⟨m, t, p, o⟩

theorem new_eq_ok {c : Argon2ParamsConfig} (h : valid c) :
    new c.m_cost c.t_cost c.p_cost c.output_len = .ok c := by
  obtain ⟨h1, h2, h3, h4, h5⟩ := h
  unfold new
  rw [if_neg (by omega), if_neg (by omega), if_neg (by omega),
    if_neg (by omega), if_neg (by omega)]

end Params

/-- The Argon2 primitive, abstracted: password, salt and cost parameters give
a byte stream (or a library error).  `hash_password_into` with an n-byte
buffer reads the first n bytes of the stream. -/
def KDFStream : Type :=
  String → List Nat → Argon2ParamsConfig → Except String (Nat → Nat)

/-- Running the KDF into an output buffer of length `len`
(`argon2.hash_password_into(password, salt, &mut buf)` with `buf.len() = len`):
the buffer's length determines how many stream bytes are produced. -/
def runKdf (kdf : KDFStream) (password : String) (salt : List Nat)
    (params : Argon2ParamsConfig) (len : Nat) : Except String (List Nat) :=
  match kdf password salt params with
  | .error e => .error e
  | .ok f => .ok ((List.range len).map f)

/-- A parsed PHC password-hash record: the cost parameters, salt and digest
embedded in the stored hash string (profile.rs `password_hash`). -/
structure PasswordHashRecord where
  params : Argon2ParamsConfig
  salt : List Nat
  digest : List Nat
deriving DecidableEq, Repr

/-- `argon2.hash_password(password, &salt)` (profile.rs lines 112-116): runs
the KDF with the fresh hashing salt and the given parameters, producing a
self-describing record whose digest has `params.output_len` bytes. -/
def hash_password (kdf : KDFStream) (salt : List Nat) (password : String)
    (params : Argon2ParamsConfig) : Except String PasswordHashRecord :=
  match runKdf kdf password salt params params.output_len with
  | .error e => .error e
  | .ok digest => .ok ⟨params, salt, digest⟩

/-- Catalog entry (profile.rs `StoredProfile`); `password_hash` is held
pre-parsed and `key_salt` holds the base64-decoded salt bytes. -/
structure StoredProfile where
  id : String
  name : String
  created_at : String
  db_path : String
  password_hash : PasswordHashRecord
  key_salt : List Nat
  argon2_params : Argon2ParamsConfig
deriving DecidableEq, Repr

/-- Public projection of a profile (models.rs `ProfileSummary`). -/
structure ProfileSummary where
  id : String
  name : String
  created_at : String
deriving DecidableEq, Repr

/-- `StoredProfile::summary` (profile.rs lines 38-44). -/
def StoredProfile.summary (p : StoredProfile) : ProfileSummary :=
  ⟨p.id, p.name, p.created_at⟩

/-- `verify_password(profile, password)` (profile.rs lines 138-153):
re-validates the stored cost parameters via `Params::new` (a `Config` error
on failure), then re-runs the KDF with the salt, parameters and digest
length embedded in the stored hash and compares digests; every failure of
the verification call itself — a KDF error or a digest mismatch — is mapped
to `Auth("Mot de passe incorrect")` by the `map_err` on lines 150-152. -/
def verify_password (kdf : KDFStream) (profile : StoredProfile)
    (password : String) : Except AppError Unit :=
  match Params.new profile.argon2_params.m_cost profile.argon2_params.t_cost
      profile.argon2_params.p_cost profile.argon2_params.output_len with
  | .error e => .error (.Config e)
  | .ok _ =>
    let stored := profile.password_hash
    match runKdf kdf password stored.salt stored.params stored.digest.length with
    | .error _ => .error (.Auth "Mot de passe incorrect")
    | .ok d =>
      if d = stored.digest then .ok ()
      else .error (.Auth "Mot de passe incorrect")

/-- `derive_key(profile, password)` (profile.rs lines 155-175): validates the
stored cost parameters, then fills a fresh buffer of `output_len` zero bytes
in place via `hash_password_into` with the profile's key salt; KDF or
parameter failures are `Config` errors. -/
def derive_key (kdf : KDFStream) (profile : StoredProfile)
    (password : String) : Except AppError (List Nat) :=
  match Params.new profile.argon2_params.m_cost profile.argon2_params.t_cost
      profile.argon2_params.p_cost profile.argon2_params.output_len with
  | .error e => .error (.Config e)
  | .ok _ =>
    match runKdf kdf password profile.key_salt profile.argon2_params
        profile.argon2_params.output_len with
    | .error e => .error (.Config e)
    | .ok key => .ok key

/-- The outcome of reading the catalog file: the file does not exist, cannot
be read, or yields text content. -/
inductive FileRead where
  | absent
  | unreadable (msg : String)
  | content (text : String)
deriving DecidableEq, Repr

/-- `load_profiles` (profile.rs lines 64-73): a missing catalog is an empty
list (first run is not an error); a read failure is an `Io` error; content
is deserialized by serde_json (`parse`, an external-library parameter) and a
parse failure is ALSO mapped to an `Io` error (line 71). -/
def load_profiles (parse : String → Except String (List StoredProfile)) :
    FileRead → Except AppError (List StoredProfile)
  | .absent => .ok []
  | .unreadable m => .error (.Io m)
  | .content s =>
    match parse s with
    | .error m => .error (.Io m)
    | .ok profiles => .ok profiles

/-- Rust `str::trim`: the string with leading and trailing whitespace
removed. -/
def trimStr (s : String) : String :=
  ⟨((s.data.dropWhile Char.isWhitespace).reverse.dropWhile
      Char.isWhitespace).reverse⟩

/-- Side effects of `create_profile`, in program order. -/
inductive IOEvent where
  | readCatalog
  | makeProfileDir (path : String)
  | writeCatalog
deriving DecidableEq, Repr

/-- `create_profile(app, name, password)` (profile.rs lines 83-136).
Environment inputs that the code draws from the OS are explicit: `loaded`
is the result of `load_profiles`, `id` the fresh UUID, `created_at` the
clock reading, `key_salt`/`hash_salt` the two independent random salts, and
`dataDir` the resolved app-data directory.  Validation of the trimmed name
and password happens before any I/O; the returned event list records the
filesystem effects actually performed, in order. -/
def create_profile (kdf : KDFStream)
    (loaded : Except AppError (List StoredProfile))
    (id created_at dataDir : String) (key_salt hash_salt : List Nat)
    (name password : String) :
    Except AppError StoredProfile × List IOEvent :=
  if (trimStr name = "") then
    (.error (.Validation "Le nom du profil est requis"), [])
  else if (trimStr password = "") then
    (.error (.Validation "Le mot de passe est requis"), [])
  else
    match loaded with
    | .error e => (.error e, [.readCatalog])
    | .ok _ =>
      match Params.new 19456 2 1 32 with
      | .error e => (.error (.Config e), [.readCatalog])
      | .ok params =>
        match hash_password kdf hash_salt password params with
        | .error e => (.error (.Config e), [.readCatalog])
        | .ok record =>
          let profileDir := dataDir ++ "/profiles/" ++ id
          let stored : StoredProfile :=
            { id := id
              name := trimStr name
              created_at := created_at
              db_path := profileDir ++ "/profile.db"
              password_hash := record
              key_salt := key_salt
              argon2_params := params }
          (.ok stored,
            [.readCatalog, .makeProfileDir profileDir, .writeCatalog])

/-- Managed record (models.rs `Patient`). -/
structure Patient where
  id : String
  first_name : String
  last_name : String
  birth_date : String
  gender : String
  phone : String
  email : Option String
  created_at : String
  updated_at : String
deriving DecidableEq, Repr

/-- Creation payload (models.rs `PatientInput`). -/
structure PatientInput where
  first_name : String
  last_name : String
  birth_date : String
  gender : String
  phone : String
  email : Option String
deriving DecidableEq, Repr

namespace Db

/-- The `ORDER BY created_at DESC` comparison: row `a` may precede row `b`
when `a.created_at ≥ b.created_at` (SQLite binary collation on TEXT). -/
def moreRecent (a b : Patient) : Prop := b.created_at ≤ a.created_at

instance : DecidableRel moreRecent := fun a b =>
  inferInstanceAs (Decidable (b.created_at ≤ a.created_at))

instance : IsTotal Patient moreRecent :=
  ⟨fun a b => le_total b.created_at a.created_at⟩

instance : IsTrans Patient moreRecent :=
  ⟨fun _ _ _ h1 h2 => le_trans h2 h1⟩

/-- `db::list_patients` (db.rs lines 42-71): `SELECT ... ORDER BY created_at
DESC` over the table rows. -/
def list_patients (rows : List Patient) : Except AppError (List Patient) :=
  .ok (rows.insertionSort moreRecent)

/-- `db::get_patient` (db.rs lines 107-126): `SELECT ... WHERE id = ?1`,
first matching row if any. -/
def get_patient (rows : List Patient) (patient_id : String) : Option Patient :=
  rows.find? (fun p => p.id == patient_id)

/-- The row that `db::create_patient` (db.rs lines 74-91) INSERTs: fresh
`id`, the input's fields, and `now` as both timestamps. -/
def mkPatient (input : PatientInput) (id now : String) : Patient :=
  { id := id
    first_name := input.first_name
    last_name := input.last_name
    birth_date := input.birth_date
    gender := input.gender
    phone := input.phone
    email := input.email
    created_at := now
    updated_at := now }

/-- `db::create_patient` (db.rs lines 73-97): INSERT the new row (a
duplicate primary key is a `Database` error), then re-read the stored row
by id.  Returns the canonical row together with the table after the
insert. -/
def create_patient (rows : List Patient) (input : PatientInput)
    (id now : String) : Except AppError (Patient × List Patient) :=
  if rows.any (fun p => p.id == id) then
    .error (.Database "UNIQUE constraint failed: patients.id")
  else
    let rows2 := rows ++ [mkPatient input id now]
    match get_patient rows2 id with
    | none => .error (.Database "Impossible de récupérer le patient")
    | some p => .ok (p, rows2)

/-- `db::delete_patient` (db.rs lines 99-105): `DELETE FROM patients WHERE
id = ?1`; deleting zero rows is still a success. -/
def delete_patient (rows : List Patient) (patient_id : String) :
    Except AppError (List Patient) :=
  .ok (rows.filter (fun p => !(p.id == patient_id)))

end Db

/-- In-memory session value (state.rs `ActiveProfile`). -/
structure ActiveProfile where
  id : String
  db_path : String
  key : List Nat
deriving DecidableEq, Repr

/-- `get_active_profile` (main.rs lines 12-15): clones the slot's content or
reports `Auth("Aucun profil ouvert")` when the slot is empty. -/
def get_active_profile (session : Option ActiveProfile) :
    Except AppError ActiveProfile :=
  match session with
  | some active => .ok active
  | none => .error (.Auth "Aucun profil ouvert")

/-- `db::open_connection` abstracted: given a store path and a raw key, a
fresh connection either fails (open / key application / schema error) or
exposes the patients table's rows. -/
def StoreOracle : Type := String → List Nat → Except AppError (List Patient)

/-- Command `list_patients` (main.rs lines 64-69): session, connection, then
the SELECT. -/
def list_patients_cmd (store : StoreOracle)
    (session : Option ActiveProfile) : Except AppError (List Patient) :=
  match get_active_profile session with
  | .error e => .error e
  | .ok active =>
    match store active.db_path active.key with
    | .error e => .error e
    | .ok rows => Db.list_patients rows

/-- Command `create_patient` (main.rs lines 71-76): session, connection, then
the INSERT (fresh uuid `id` and clock reading `now` made explicit). -/
def create_patient_cmd (store : StoreOracle) (input : PatientInput)
    (id now : String) (session : Option ActiveProfile) :
    Except AppError Patient :=
  match get_active_profile session with
  | .error e => .error e
  | .ok active =>
    match store active.db_path active.key with
    | .error e => .error e
    | .ok rows =>
      match Db.create_patient rows input id now with
      | .error e => .error e
      | .ok (p, _) => .ok p

/-- Command `delete_patient` (main.rs lines 78-83). -/
def delete_patient_cmd (store : StoreOracle) (patient_id : String)
    (session : Option ActiveProfile) : Except AppError Unit :=
  match get_active_profile session with
  | .error e => .error e
  | .ok active =>
    match store active.db_path active.key with
    | .error e => .error e
    | .ok rows =>
      match Db.delete_patient rows patient_id with
      | .error e => .error e
      | .ok _ => .ok ()

/-- Command `open_profile` (main.rs lines 36-62): load the catalog, find the
profile by id (`NotFound("Profil introuvable")` if absent), verify the
password, derive the storage key, probe-open the store (the connection is
dropped), and only then unconditionally replace the session slot.  Returns
the command result together with the slot's new content. -/
def open_profile (kdf : KDFStream)
    (loaded : Except AppError (List StoredProfile)) (store : StoreOracle)
    (profile_id password : String) (session : Option ActiveProfile) :
    Except AppError ProfileSummary × Option ActiveProfile :=
  match loaded with
  | .error e => (.error e, session)
  | .ok profiles =>
    match profiles.find? (fun p => p.id == profile_id) with
    | none => (.error (.NotFound "Profil introuvable"), session)
    | some profile =>
      match verify_password kdf profile password with
      | .error e => (.error e, session)
      | .ok _ =>
        match derive_key kdf profile password with
        | .error e => (.error e, session)
        | .ok key =>
          match store profile.db_path key with
          | .error e => (.error e, session)
          | .ok _ =>
            (.ok profile.summary,
              some ⟨profile.id, profile.db_path, key⟩)

/-! Concrete fixtures used to instantiate theorems with hypotheses. -/

/-- A concrete KDF instance: the byte stream is constant at the password's
length (collision-free for the password pairs used below). -/
def kdf0 : KDFStream := fun password _ _ => .ok (fun _ => password.length)

/-- The cost parameters hard-coded in `create_profile`. -/
def params0 : Argon2ParamsConfig := ⟨19456, 2, 1, 32⟩

/-- Digest of password "a" under `kdf0`. -/
def digest0 : List Nat := (List.range 32).map (fun _ => 1)

/-- Key bytes of password "a" under `kdf0` with 32-byte output. -/
def key0 : List Nat := (List.range 32).map (fun _ => 1)

/-- Stored hash record for password "a" under `kdf0`. -/
def record0 : PasswordHashRecord := ⟨params0, [1, 2, 3, 4], digest0⟩

/-- A concrete catalog entry whose password is "a". -/
def profile0 : StoredProfile :=
  ⟨"p1", "Alice", "2024-01-01T00:00:00+00:00",
    "/data/profiles/p1/profile.db", record0, [5, 6], params0⟩

/-- A store oracle holding an empty patients table everywhere. -/
def store0 : StoreOracle := fun _ _ => .ok []

/-- A concrete previously-active session. -/
def active0 : ActiveProfile := ⟨"p0", "/data/profiles/p0/profile.db", [0]⟩

/-- C1: each data command (list_patients, create_patient, delete_patient)
invoked with an empty session slot fails with the authorization error
`Auth("Aucun profil ouvert")` — never an ok/empty result — whatever the
store contains. -/
theorem data_commands_require_active_session (store : StoreOracle)
    (input : PatientInput) (id now patient_id : String) :
    list_patients_cmd store none = .error (.Auth "Aucun profil ouvert") ∧
    create_patient_cmd store input id now none =
      .error (.Auth "Aucun profil ouvert") ∧
    delete_patient_cmd store patient_id none =
      .error (.Auth "Aucun profil ouvert") :=
  ⟨rfl, rfl, rfl⟩

/-- C10: whenever `open_profile` fails — catalog load failure, unknown id,
wrong password, key-derivation failure, or store-open failure — the session
slot keeps exactly its prior content. -/
theorem open_profile_failure_preserves_session (kdf : KDFStream)
    (loaded : Except AppError (List StoredProfile)) (store : StoreOracle)
    (profile_id password : String) (s0 : Option ActiveProfile) (e : AppError)
    (h : (open_profile kdf loaded store profile_id password s0).1 = .error e) :
    (open_profile kdf loaded store profile_id password s0).2 = s0 := by
  unfold open_profile at h ⊢
  cases loaded with
  | error e2 => rfl
  | ok profiles =>
    cases hf : profiles.find? (fun p => p.id == profile_id) with
    | none => simp [hf]
    | some profile =>
      simp only [hf] at h ⊢
      cases hv : verify_password kdf profile password with
      | error e2 => simp [hv]
      | ok u =>
        simp only [hv] at h ⊢
        cases hd : derive_key kdf profile password with
        | error e2 => simp [hd]
        | ok key =>
          simp only [hd] at h ⊢
          cases hs : store profile.db_path key with
          | error e2 => simp [hs]
          | ok rows => simp [hs] at h

/-- Witness for C10: opening an unknown profile id against an empty catalog
fails and leaves the previously active session in place. -/
theorem open_profile_failure_preserves_session_witness :
    (open_profile kdf0 (.ok []) store0 "missing" "pw" (some active0)).2 =
      some active0 :=
  open_profile_failure_preserves_session kdf0 (.ok []) store0 "missing" "pw"
    (some active0) (.NotFound "Profil introuvable") rfl

/-- C2: the slot holds at most one session (it is an `Option`), and a
successful `open_profile` installs the found profile's session regardless of
— and without erroring on — any previously active session: for EVERY prior
slot content the call returns the same success and the same new session, and
a subsequent `list_patients` command reads the store at that profile's
`db_path` with the freshly derived key. -/
theorem open_profile_replaces_session (kdf : KDFStream)
    (loaded : Except AppError (List StoredProfile)) (store : StoreOracle)
    (profile_id password : String) (s0 : Option ActiveProfile)
    (summary : ProfileSummary)
    (h : (open_profile kdf loaded store profile_id password s0).1 = .ok summary) :
    ∃ profiles profile key, loaded = .ok profiles ∧ profile ∈ profiles ∧
      profile.id = profile_id ∧ summary = profile.summary ∧
      (∀ s1 : Option ActiveProfile,
        open_profile kdf loaded store profile_id password s1 =
          (.ok summary, some ⟨profile.id, profile.db_path, key⟩)) ∧
      (∀ store2 : StoreOracle, ∀ rows, store2 profile.db_path key = .ok rows →
        list_patients_cmd store2
            (open_profile kdf loaded store profile_id password s0).2 =
          Db.list_patients rows) := by
  unfold open_profile at h ⊢
  cases loaded with
  | error e => cases h
  | ok profiles =>
    cases hf : profiles.find? (fun p => p.id == profile_id) with
    | none => simp [hf] at h
    | some profile =>
      simp only [hf] at h ⊢
      cases hv : verify_password kdf profile password with
      | error e => simp [hv] at h
      | ok u =>
        simp only [hv] at h ⊢
        cases hd : derive_key kdf profile password with
        | error e => simp [hd] at h
        | ok key =>
          simp only [hd] at h ⊢
          cases hs : store profile.db_path key with
          | error e => simp [hs] at h
          | ok rows0 =>
            simp only [hs] at h ⊢
            have hsum : summary = profile.summary := by
              cases h; rfl
            refine ⟨profiles, profile, key,
              rfl, List.mem_of_find?_eq_some hf, ?_, hsum, ?_, ?_⟩
            · have := List.find?_some hf
              simpa using this
            · intro s1; rw [hsum]
            · intro store2 rows hrows
              unfold list_patients_cmd get_active_profile
              simp [hrows]

/-- Witness for C2: with a one-profile catalog and its correct password,
opening over an unrelated previously active session succeeds; the installed
session carries the opened profile's path and key, and listing afterwards
reads that store. -/
theorem open_profile_replaces_session_witness :
    ∃ profiles profile key,
      (.ok [profile0] : Except AppError (List StoredProfile)) = .ok profiles ∧
      profile ∈ profiles ∧ profile.id = "p1" ∧
      profile0.summary = profile.summary ∧
      (∀ s1 : Option ActiveProfile,
        open_profile kdf0 (.ok [profile0]) store0 "p1" "a" s1 =
          (.ok profile0.summary, some ⟨profile.id, profile.db_path, key⟩)) ∧
      (∀ store2 : StoreOracle, ∀ rows, store2 profile.db_path key = .ok rows →
        list_patients_cmd store2
            (open_profile kdf0 (.ok [profile0]) store0 "p1" "a"
              (some active0)).2 =
          Db.list_patients rows) :=
  open_profile_replaces_session kdf0 (.ok [profile0]) store0 "p1" "a"
    (some active0) profile0.summary rfl

/-- The in-place KDF fill returns as many bytes as the output buffer holds. -/
theorem runKdf_length {kdf : KDFStream} {password : String} {salt : List Nat}
    {params : Argon2ParamsConfig} {len : Nat} {out : List Nat}
    (h : runKdf kdf password salt params len = .ok out) : out.length = len := by
  unfold runKdf at h
  split at h
  · cases h
  · cases h; simp

/-- C4: `derive_key` is deterministic — two evaluations at identical inputs
give the same result — and every successful derivation returns exactly
`argon2_params.output_len` bytes. -/
theorem derive_key_deterministic_length (kdf : KDFStream)
    (profile : StoredProfile) (password : String) :
    (∀ r1 r2 : Except AppError (List Nat),
      derive_key kdf profile password = r1 →
      derive_key kdf profile password = r2 → r1 = r2) ∧
    (∀ key, derive_key kdf profile password = .ok key →
      key.length = profile.argon2_params.output_len) := by
  constructor
  · intro r1 r2 h1 h2; rw [← h1, ← h2]
  · intro key h
    unfold derive_key at h
    split at h
    · cases h
    · split at h
      · cases h
      · rename_i key2 hk
        cases h
        exact runKdf_length hk

/-- Witness for C4: deriving the key of `profile0` from password "a" under
`kdf0` yields `key0`, whose length is the profile's `output_len` (32). -/
theorem derive_key_deterministic_length_witness :
    key0.length = profile0.argon2_params.output_len :=
  (derive_key_deterministic_length kdf0 profile0 "a").2 key0 rfl

/-- C3: hashing a password and verifying the same password against the
resulting record succeeds; verifying a DIFFERENT password fails with
`Auth("Mot de passe incorrect")`.  The mismatch hypothesis `hcoll` is the
collision-freedom of the KDF primitive at these inputs (distinct passwords
give distinct digests), which is the cryptographic contract Argon2id is
chosen for; `hvalid` states that the profile's stored cost parameters pass
`Params::new` (true of every profile the code creates). -/
theorem verify_password_roundtrip (kdf : KDFStream) (profile : StoredProfile)
    (hash_salt : List Nat) (params : Argon2ParamsConfig)
    (p1 p2 : String) (d2 : List Nat)
    (hvalid : Params.valid profile.argon2_params)
    (hhash : hash_password kdf hash_salt p1 params = .ok profile.password_hash)
    (_hne : p1 ≠ p2)
    (hrun2 : runKdf kdf p2 profile.password_hash.salt
        profile.password_hash.params profile.password_hash.digest.length =
        .ok d2)
    (hcoll : d2 ≠ profile.password_hash.digest) :
    verify_password kdf profile p1 = .ok () ∧
    verify_password kdf profile p2 = .error (.Auth "Mot de passe incorrect") := by
  have hnew := Params.new_eq_ok hvalid
  unfold hash_password at hhash
  cases hr : runKdf kdf p1 hash_salt params params.output_len with
  | error e => rw [hr] at hhash; cases hhash
  | ok digest =>
    rw [hr] at hhash
    have hph : profile.password_hash = ⟨params, hash_salt, digest⟩ :=
      (Except.ok.inj hhash).symm
    have hlen : digest.length = params.output_len := runKdf_length hr
    constructor
    · unfold verify_password
      rw [hnew, hph]
      simp only [hlen]
      rw [hr]
      simp
    · unfold verify_password
      rw [hnew]
      rw [hph] at hrun2 hcoll
      simp only at hrun2 hcoll
      simp only [hph]
      rw [hrun2]
      simp [hcoll]

/-- Witness for C3: under `kdf0`, hashing password "a" yields `record0`
(held by `profile0`); verifying "a" succeeds and verifying "bb" fails with
the `Auth` error. -/
theorem verify_password_roundtrip_witness :
    verify_password kdf0 profile0 "a" = .ok () ∧
    verify_password kdf0 profile0 "bb" =
      .error (.Auth "Mot de passe incorrect") :=
  verify_password_roundtrip kdf0 profile0 [1, 2, 3, 4] params0 "a" "bb"
    ((List.range 32).map (fun _ => 2)) (by decide) rfl (by decide) rfl
    (by decide)

/-- Counterexample to C5 as stated: on a concrete one-profile catalog, an
unknown profile id and a wrong password for the existing id produce
DIFFERENT errors — `NotFound("Profil introuvable")` versus
`Auth("Mot de passe incorrect")` — whose user-facing message strings also
differ, so the two failure cases are distinguishable by the caller. -/
theorem open_profile_errors_distinguishable_cex :
    (open_profile kdf0 (.ok [profile0]) store0 "missing" "a" none).1 =
      .error (.NotFound "Profil introuvable") ∧
    (open_profile kdf0 (.ok [profile0]) store0 "p1" "bb" none).1 =
      .error (.Auth "Mot de passe incorrect") ∧
    AppError.NotFound "Profil introuvable" ≠
      AppError.Auth "Mot de passe incorrect" ∧
    AppError.message (.NotFound "Profil introuvable") ≠
      AppError.message (.Auth "Mot de passe incorrect") :=
  ⟨rfl, rfl, by decide, by decide⟩

/-- C5 amended: `open_profile` DOES reveal which case occurred — an id
absent from the catalog fails with `NotFound("Profil introuvable")` while a
wrong password for an existing id fails with
`Auth("Mot de passe incorrect")`; the two errors differ in kind and in
message, so the failure outputs are distinguishable. -/
theorem open_profile_distinguishes_cases
    (kdf kdf2 : KDFStream) (profiles profiles2 : List StoredProfile)
    (store store2 : StoreOracle) (pid pid2 pw pw2 : String)
    (s0 s1 : Option ActiveProfile) (profile : StoredProfile)
    (h1 : profiles.find? (fun p => p.id == pid) = none)
    (h2 : profiles2.find? (fun p => p.id == pid2) = some profile)
    (h3 : verify_password kdf2 profile pw2 =
      .error (.Auth "Mot de passe incorrect")) :
    (open_profile kdf (.ok profiles) store pid pw s0).1 =
      .error (.NotFound "Profil introuvable") ∧
    (open_profile kdf2 (.ok profiles2) store2 pid2 pw2 s1).1 =
      .error (.Auth "Mot de passe incorrect") ∧
    (AppError.NotFound "Profil introuvable").kind ≠
      (AppError.Auth "Mot de passe incorrect").kind ∧
    AppError.message (.NotFound "Profil introuvable") ≠
      AppError.message (.Auth "Mot de passe incorrect") := by
  refine ⟨?_, ?_, by decide, by decide⟩
  · unfold open_profile
    simp [h1]
  · unfold open_profile
    simp [h2, h3]

/-- Witness for the amended C5: the concrete catalog `[profile0]`, the
unknown id "missing" and the wrong password "bb" realize both hypotheses. -/
theorem open_profile_distinguishes_cases_witness :
    (open_profile kdf0 (.ok [profile0]) store0 "missing" "a"
        (some active0)).1 = .error (.NotFound "Profil introuvable") ∧
    (open_profile kdf0 (.ok [profile0]) store0 "p1" "bb" none).1 =
      .error (.Auth "Mot de passe incorrect") ∧
    (AppError.NotFound "Profil introuvable").kind ≠
      (AppError.Auth "Mot de passe incorrect").kind ∧
    AppError.message (.NotFound "Profil introuvable") ≠
      AppError.message (.Auth "Mot de passe incorrect") :=
  open_profile_distinguishes_cases kdf0 kdf0 [profile0] [profile0] store0
    store0 "missing" "p1" "a" "bb" (some active0) none profile0 rfl rfl rfl

/-- A serde_json stand-in that rejects every content string. -/
def parse0 : String → Except String (List StoredProfile) :=
  fun _ => .error "expected value at line 1 column 1"

/-- Counterexample to C6 as stated: malformed catalog content is reported
as an `Io` error — `load_profiles` maps the serde_json failure through
`AppError::Io` (profile.rs line 71) — which is the SAME error kind as an
unreadable file, not a distinct deserialization kind (the `AppError`
enumeration has no deserialization variant at all). -/
theorem load_profiles_malformed_is_io_cex :
    load_profiles parse0 (.content "not json") =
      .error (.Io "expected value at line 1 column 1") ∧
    load_profiles parse0 (.unreadable "permission denied") =
      .error (.Io "permission denied") ∧
    (AppError.Io "expected value at line 1 column 1").kind =
      (AppError.Io "permission denied").kind :=
  ⟨rfl, rfl, rfl⟩

/-- C6 amended: malformed catalog content is reported as an error (not
retried), but of the `Io` kind — the SAME kind as a filesystem read
failure; the code does not distinguish deserialization failures from I/O
failures. -/
theorem load_profiles_malformed_reports_io
    (parse : String → Except String (List StoredProfile)) (s m m' : String)
    (h : parse s = .error m) :
    load_profiles parse (.content s) = .error (.Io m) ∧
    load_profiles parse (.unreadable m') = .error (.Io m') ∧
    (AppError.Io m).kind = ErrorKind.io ∧
    (AppError.Io m').kind = ErrorKind.io := by
  refine ⟨?_, rfl, rfl, rfl⟩
  simp only [load_profiles]
  rw [h]

/-- Witness for the amended C6: `parse0` rejects the concrete content
"oops". -/
theorem load_profiles_malformed_reports_io_witness :
    load_profiles parse0 (.content "oops") =
      .error (.Io "expected value at line 1 column 1") ∧
    load_profiles parse0 (.unreadable "denied") = .error (.Io "denied") ∧
    (AppError.Io "expected value at line 1 column 1").kind = ErrorKind.io ∧
    (AppError.Io "denied").kind = ErrorKind.io :=
  load_profiles_malformed_reports_io parse0 "oops"
    "expected value at line 1 column 1" "denied" rfl

/-- C7: a name or password that is empty after trimming makes
`create_profile` fail with a `Validation` error and an EMPTY effect list —
no catalog read or write, no directory creation. -/
theorem create_profile_validates_before_io (kdf : KDFStream)
    (loaded : Except AppError (List StoredProfile))
    (id created_at dataDir : String) (key_salt hash_salt : List Nat)
    (name password : String)
    (h : trimStr name = "" ∨ trimStr password = "") :
    (∃ m, (create_profile kdf loaded id created_at dataDir key_salt
      hash_salt name password).1 = .error (.Validation m)) ∧
    (create_profile kdf loaded id created_at dataDir key_salt hash_salt
      name password).2 = [] := by
  unfold create_profile
  rcases h with h | h
  · simp [h]
  · by_cases hn : trimStr name = ""
    · simp [hn]
    · simp [hn, h]

/-- Witness for C7: a whitespace-only name is rejected with no I/O. -/
theorem create_profile_validates_before_io_witness :
    (∃ m, (create_profile kdf0 (.ok []) "id0" "2024" "/data" [] []
      "   " "pw").1 = .error (.Validation m)) ∧
    (create_profile kdf0 (.ok []) "id0" "2024" "/data" [] []
      "   " "pw").2 = [] :=
  create_profile_validates_before_io kdf0 (.ok []) "id0" "2024" "/data"
    [] [] "   " "pw" (Or.inl (by decide))

/-- In a list sorted most-recent-first, an element strictly more recent than
every other element is the head. -/
theorem head_of_sorted_strict_max {l : List Patient} {x : Patient}
    (hs : l.Sorted Db.moreRecent) (hx : x ∈ l)
    (hmax : ∀ q ∈ l, q ≠ x → q.created_at < x.created_at) :
    l.head? = some x := by
  cases l with
  | nil => cases hx
  | cons a t =>
    by_cases hax : a = x
    · rw [hax]; rfl
    · exfalso
      have hxt : x ∈ t := by
        rcases List.mem_cons.mp hx with h | h
        · exact absurd h.symm hax
        · exact h
      have hr : Db.moreRecent a x := (List.sorted_cons.mp hs).1 x hxt
      have hlt : a.created_at < x.created_at :=
        hmax a (List.mem_cons_self a t) hax
      exact absurd hr (not_le.mpr hlt)

/-- Appending a row whose id is fresh and re-reading by that id returns the
appended row. -/
theorem get_patient_append_new (rows : List Patient) (x : Patient)
    (pid : String) (hid : x.id = pid)
    (hA : rows.any (fun p => p.id == pid) = false) :
    Db.get_patient (rows ++ [x]) pid = some x := by
  unfold Db.get_patient
  induction rows with
  | nil => simp [hid]
  | cons a t ih =>
    simp only [List.any_cons, Bool.or_eq_false_iff] at hA
    simp only [List.cons_append, List.find?_cons, hA.1]
    exact ih hA.2

/-- C8: `list_patients` returns the table's rows ordered by creation time,
most recent first (a sorted permutation of the rows); and a row just
created with a timestamp later than every existing row's is returned FIRST
by the next listing. -/
theorem list_patients_most_recent_first (rows : List Patient)
    (input : PatientInput) (id now : String) (pat : Patient)
    (rows2 : List Patient)
    (hfresh : ∀ q ∈ rows, q.created_at < now)
    (hc : Db.create_patient rows input id now = .ok (pat, rows2)) :
    (∀ rs : List Patient, ∃ l, Db.list_patients rs = .ok l ∧
      l.Sorted Db.moreRecent ∧ l.Perm rs) ∧
    pat.created_at = now ∧
    ∃ l, Db.list_patients rows2 = .ok l ∧ l.head? = some pat := by
  have hlist : ∀ rs : List Patient, ∃ l, Db.list_patients rs = .ok l ∧
      l.Sorted Db.moreRecent ∧ l.Perm rs := by
    intro rs
    exact ⟨rs.insertionSort Db.moreRecent, rfl,
      List.sorted_insertionSort Db.moreRecent rs,
      List.perm_insertionSort Db.moreRecent rs⟩
  have hA : rows.any (fun p => p.id == id) = false := by
    cases hany : rows.any (fun p => p.id == id) with
    | false => rfl
    | true =>
      unfold Db.create_patient at hc
      rw [hany] at hc
      simp at hc
  unfold Db.create_patient at hc
  rw [hA] at hc
  simp only [Bool.false_eq_true, if_false] at hc
  rw [get_patient_append_new rows (Db.mkPatient input id now) id rfl hA]
    at hc
  have hpat : pat = Db.mkPatient input id now := by
    cases hc; rfl
  have hrows2 : rows2 = rows ++ [Db.mkPatient input id now] := by
    cases hc; rfl
  refine ⟨hlist, by rw [hpat]; rfl, ?_⟩
  obtain ⟨l, hl, hsort, hperm⟩ := hlist rows2
  refine ⟨l, hl, ?_⟩
  apply head_of_sorted_strict_max hsort
  · rw [hperm.mem_iff, hrows2, hpat]
    simp
  · intro q hq hqne
    have hqmem : q ∈ rows2 := hperm.mem_iff.mp hq
    rw [hrows2] at hqmem
    rcases List.mem_append.mp hqmem with hqr | hqx
    · rw [hpat]
      exact hfresh q hqr
    · exact absurd (by simpa [hpat] using hqx) hqne

/-- A concrete creation payload. -/
def input0 : PatientInput :=
  ⟨"Jean", "Dupont", "1990-01-01", "M", "0600000000", none⟩

/-- Witness for C8: creating a patient in an empty table and listing
returns it first. -/
theorem list_patients_most_recent_first_witness :
    (∀ rs : List Patient, ∃ l, Db.list_patients rs = .ok l ∧
      l.Sorted Db.moreRecent ∧ l.Perm rs) ∧
    (Db.mkPatient input0 "pa" "2024-05-01T10:00:00+00:00").created_at =
      "2024-05-01T10:00:00+00:00" ∧
    ∃ l, Db.list_patients
        [Db.mkPatient input0 "pa" "2024-05-01T10:00:00+00:00"] = .ok l ∧
      l.head? = some (Db.mkPatient input0 "pa" "2024-05-01T10:00:00+00:00") :=
  list_patients_most_recent_first [] input0 "pa" "2024-05-01T10:00:00+00:00"
    (Db.mkPatient input0 "pa" "2024-05-01T10:00:00+00:00")
    [Db.mkPatient input0 "pa" "2024-05-01T10:00:00+00:00"]
    (by intro q hq; cases hq) rfl

/-- C9: `delete_patient` succeeds for EVERY id — present in the table or
not — the deleted id no longer appears in a subsequent listing, and
deleting the same id again succeeds returning the unchanged table
(idempotence). -/
theorem delete_patient_idempotent (rows : List Patient) (patient_id : String) :
    ∃ rows2, Db.delete_patient rows patient_id = .ok rows2 ∧
      Db.delete_patient rows2 patient_id = .ok rows2 ∧
      ∀ l, Db.list_patients rows2 = .ok l → ∀ p ∈ l, p.id ≠ patient_id := by
  refine ⟨rows.filter (fun p => !(p.id == patient_id)), rfl, ?_, ?_⟩
  · unfold Db.delete_patient
    rw [List.filter_eq_self.mpr]
    intro a ha
    exact (List.mem_filter.mp ha).2
  · intro l hl p hp
    have hl2 : l = (rows.filter
        (fun p => !(p.id == patient_id))).insertionSort Db.moreRecent := by
      cases hl; rfl
    rw [hl2] at hp
    have hpf := (List.perm_insertionSort Db.moreRecent _).mem_iff.mp hp
    have := (List.mem_filter.mp hpf).2
    simpa using this

/-- A concrete stored row. -/
def patient0 : Patient :=
  ⟨"pa", "Jean", "Dupont", "1990-01-01", "M", "0600000000", none,
    "2024-01-01T00:00:00+00:00", "2024-01-01T00:00:00+00:00"⟩

/-- Witness for C9: deleting id "pa" from a one-row table and again. -/
theorem delete_patient_idempotent_witness :
    ∃ rows2, Db.delete_patient [patient0] "pa" = .ok rows2 ∧
      Db.delete_patient rows2 "pa" = .ok rows2 ∧
      ∀ l, Db.list_patients rows2 = .ok l → ∀ p ∈ l, p.id ≠ "pa" :=
  delete_patient_idempotent [patient0] "pa"

end Osteoflow
